import Mathlib

/-!
Shallow embedding of nasa9084/redmine-issue-summary (src/main.go).

The source file holds three iterations of the program.  We refer to them as
the first variant (getUser without a nil guard, lines 1-187), the older
classifier variant (string-level isExpired / isNear and fprintIssues,
lines 188-340) and the latest variant (convertIssues, isExpired / isNear on
time.Time, isSameUser, postToSlack, lines 341-580).

Modelling choices:
* Go time.Time instants are integers counting nanoseconds since
  1970-01-01T00:00 in the run's single time zone.  Every instant the
  program builds is a local midnight (today, parsed due dates, the zero
  value 0001-01-01); comparisons, Sub and Add of whole hours are exact
  integer arithmetic.
* Calendar conversion (time.Date / Format) is the standard proleptic
  Gregorian day arithmetic used by the Go time package.
* Go float64 Duration.Minutes / Duration.Hours are modelled as exact
  rational arithmetic; at every concrete point evaluated below the value is
  far from the compared boundary, so rounding cannot change the result.
* Fallible calls return Option: a none oracle result models an error
  return from a remote call, while a none overall result of a getUser
  model marks a crash (nil dereference) or a non-terminating match.
* The Go recursion in isSameUser is not structurally terminating, so the
  embedding adds an explicit fuel parameter; a none result means the
  recursion is still running after that many nested calls.
-/

/-- Nanoseconds in one day (Go: 24 * time.Hour). -/
def nsPerDay : Int := 86400000000000

/-- Day count since 1970-01-01 of the proleptic Gregorian civil date
y-m-d, the date arithmetic underlying Go time.Date. -/
def daysFromCivil (y m d : Int) : Int :=
  let yy := if m ≤ 2 then y - 1 else y
  let era := Int.fdiv yy 400
  let yoe := yy - era * 400
  let mp := Int.emod (m + 9) 12
  let doy := Int.fdiv (153 * mp + 2) 5 + d - 1
  let doe := yoe * 365 + Int.fdiv yoe 4 - Int.fdiv yoe 100 + doy
  era * 146097 + doe - 719468

/-- Civil date (y, m, d) of a day count since 1970-01-01; inverse of
daysFromCivil, used by the Format model. -/
def civilFromDays (z0 : Int) : Int × Int × Int :=
  let z := z0 + 719468
  let era := Int.fdiv z 146097
  let doe := z - era * 146097
  let yoe := Int.fdiv (doe - Int.fdiv doe 1460 + Int.fdiv doe 36524 - Int.fdiv doe 146096) 365
  let y := yoe + era * 400
  let doy := doe - (365 * yoe + Int.fdiv yoe 4 - Int.fdiv yoe 100)
  let mp := Int.fdiv (5 * doy + 2) 153
  let d := doy - Int.fdiv (153 * mp + 2) 5 + 1
  let m := if mp < 10 then mp + 3 else mp - 9
  (if m ≤ 2 then y + 1 else y, m, d)

/-- Go Weekday (Sunday = 0 .. Saturday = 6) of an instant in nanoseconds
since 1970-01-01T00:00; 1970-01-01 was a Thursday (= 4). -/
def goWeekdayNs (t : Int) : Int := Int.emod (Int.fdiv t nsPerDay + 4) 7

/-- The week boundary both variants compute once at start:
today.Add(time.Duration(5-today.Weekday()) * time.Hour * 24) in the latest
variant and now.Add(time.Duration(time.Friday-now.Weekday()) * 24 * time.Hour)
in the older one - the same arithmetic. -/
def weekendNs (start : Int) : Int := start + (5 - goWeekdayNs start) * 3600000000000 * 24

/-- Gregorian leap-year rule (Go time.isLeap). -/
def isLeap (y : Int) : Bool :=
  Int.emod y 4 == 0 && (Int.emod y 100 != 0 || Int.emod y 400 == 0)

/-- Days in a month, as checked by Go time.Parse (daysIn). -/
def daysInMonth (y m : Int) : Int :=
  if m = 2 then (if isLeap y then 29 else 28)
  else if m = 4 ∨ m = 6 ∨ m = 9 ∨ m = 11 then 30
  else 31

def digitVal (ch : Char) : Option Int :=
  if ch.isDigit then some ((ch.toNat : Int) - 48) else none

/-- Model of Go time.Parse / time.ParseInLocation with layout 2006-01-02:
exactly ten characters YYYY-MM-DD, digits in the digit places, month and
day range-checked; the result is the day count of the parsed date. -/
def parseGoDate (s : String) : Option Int :=
  match s.data with
  | [y1, y2, y3, y4, h1, m1, m2, h2, d1, d2] =>
    if h1 = '-' ∧ h2 = '-' then
      match digitVal y1, digitVal y2, digitVal y3, digitVal y4,
            digitVal m1, digitVal m2, digitVal d1, digitVal d2 with
      | some a1, some a2, some a3, some a4, some b1, some b2, some e1, some e2 =>
        let y := a1 * 1000 + a2 * 100 + a3 * 10 + a4
        let m := b1 * 10 + b2
        let d := e1 * 10 + e2
        if 1 ≤ m ∧ m ≤ 12 ∧ 1 ≤ d ∧ d ≤ daysInMonth y m then
          some (daysFromCivil y m d)
        else none
      | _, _, _, _, _, _, _, _ => none
    else none
  | _ => none

/-- A parsed due date as an instant (midnight of the parsed date). -/
def parseDueDate (s : String) : Option Int :=
  (parseGoDate s).map (fun d => d * nsPerDay)

/-- The zero time.Time value 0001-01-01T00:00, which time.Parse leaves in
place when it fails. -/
def zeroTimeNs : Int := daysFromCivil 1 1 1 * nsPerDay

def padNum (w : Nat) (n : Int) : String :=
  let s := toString n.toNat
  String.mk (List.replicate (w - s.length) '0') ++ s

/-- Go t.Format with layout 2006-01-02 for the midnight instants the
program builds. -/
def formatDate (t : Int) : String :=
  match civilFromDays (Int.fdiv t nsPerDay) with
  | (y, m, d) => padNum 4 y ++ "-" ++ padNum 2 m ++ "-" ++ padNum 2 d

/-- Latest variant formatTime (src/main.go lines 574-580): format the date
and blank out the zero-value sentinel string. -/
def formatTime (t : Int) : String :=
  let s := formatDate t
  if s = "0001-01-01" then "" else s

structure IdName where
  id : Int
  name : String
deriving DecidableEq, Repr

/-- The fields of redmine.Issue the program reads. -/
structure RIssue where
  id : Int
  subject : String
  dueDate : String
  assignedTo : Option IdName
deriving DecidableEq, Repr

/-- The fields of redmine.User the program reads. -/
structure RUser where
  login : String
  firstname : String
  lastname : String
deriving DecidableEq, Repr

/-- The fields of a Slack user object the program reads. -/
structure SlackUser where
  id : String
  name : String
  realName : String
deriving DecidableEq, Repr

/-- Latest variant issue struct (ID, Subject, DueDate time.Time, AssignedTo). -/
structure IssueV3 where
  id : Int
  subject : String
  dueDate : Int
  assignedTo : Option IdName
deriving DecidableEq, Repr

/-- Latest variant convertIssues body for one issue (lines 461-474):
due, _ := time.Parse("2006-01-02", ri.DueDate) keeps the zero value when
parsing fails. -/
def convertIssue (ri : RIssue) : IssueV3 :=
  { id := ri.id, subject := ri.subject,
    dueDate := (parseDueDate ri.dueDate).getD zeroTimeNs,
    assignedTo := ri.assignedTo }

def convertIssues (ris : List RIssue) : List IssueV3 := ris.map convertIssue

/-- Latest variant isExpired (lines 486-488): today.After(is.DueDate). -/
def isExpired (today : Int) (is2 : IssueV3) : Bool := decide (is2.dueDate < today)

/-- Latest variant isNear (lines 490-492):
!isExpired(is) && weekend.After(is.DueDate). -/
def isNear (today weekend : Int) (is2 : IssueV3) : Bool :=
  !isExpired today is2 && decide (is2.dueDate < weekend)

/-- The expired channel contents produced by collect (an order-preserving
filter of the issue list). -/
def expiredBucket (today : Int) (iss : List IssueV3) : List IssueV3 :=
  iss.filter (isExpired today)

/-- The near channel contents produced by collect. -/
def nearBucket (today weekend : Int) (iss : List IssueV3) : List IssueV3 :=
  iss.filter (isNear today weekend)

/-- Older variant isExpired (lines 313-319): parse inside, false on error,
then now.After(due). -/
def isExpiredV2 (nowNs : Int) (ri : RIssue) : Bool :=
  match parseDueDate ri.dueDate with
  | none => false
  | some due => decide (due < nowNs)

/-- Exact division of a rational by a positive integer constant; used to
model the real-valued float64 divisions below (ratDivPos x c = x / c,
proved in ratDivPos_eq). -/
def ratDivPos (x : Rat) (c : Nat) : Rat := mkRat x.num (x.den * c)

/-- Exact rational subtraction (ratSub a b = a - b, proved in ratSub_eq). -/
def ratSub (a b : Rat) : Rat := mkRat (a.num * b.den - b.num * a.den) (a.den * b.den)

/-- Older variant isNear (lines 321-329): parse inside, false on error,
then d := due.Sub(weekend) / 24 (int64 division truncating toward zero)
and days := (d.Minutes() - d.Hours()) / 60 < 7.  Duration.Minutes() is
d / 60000000000 and Duration.Hours() is d / 3600000000000 as float64; the
float arithmetic is modelled exactly over the rationals (at every point
this development evaluates, the value is far from the boundary 7, so
float64 rounding cannot change the comparison). -/
def isNearV2 (weekendV2 : Int) (ri : RIssue) : Bool :=
  match parseDueDate ri.dueDate with
  | none => false
  | some due =>
    let d : Int := Int.tdiv (due - weekendV2) 24
    let days : Rat := ratDivPos (ratSub (ratDivPos (d : Rat) 60000000000) (ratDivPos (d : Rat) 3600000000000)) 60
    decide (days < 7)

def expiredBucketV2 (nowNs : Int) (ris : List RIssue) : List RIssue :=
  ris.filter (isExpiredV2 nowNs)

def nearBucketV2 (weekendV2 : Int) (ris : List RIssue) : List RIssue :=
  ris.filter (isNearV2 weekendV2)

/-- Latest variant unassignable (lines 523-528). -/
def unassignable (target label : String) : String :=
  if target = "" then label ++ "未設定" else target

/-- One report line of the latest variant postToSlack (lines 504 and 512);
resolve stands for the getUser call made while formatting the line. -/
def issueLine (endpoint : String) (resolve : Option IdName → String) (is2 : IssueV3) : String :=
  "- " ++ unassignable (formatTime is2.dueDate) "期日" ++ " <" ++ endpoint ++ "/issues/" ++
    toString is2.id ++ "|#" ++ toString is2.id ++ ">: " ++ is2.subject ++ "(" ++
    unassignable (resolve is2.assignedTo) "担当" ++ ")\n"

/-- The buffer-and-counter loop of postToSlack over one bucket: the buffer
accumulates one line per ticket while the counter counts them. -/
def renderBucket (line : IssueV3 → String) (iss : List IssueV3) : String × Nat :=
  iss.foldl (fun acc is2 => (acc.1 ++ line is2, acc.2 + 1)) ("", 0)

def expiredCountLine (n : Nat) : String := "期限切れのチケットは *" ++ toString n ++ "件* です\n"

def nearCountLine (n : Nat) : String := "期限切れが近いチケットは *" ++ toString n ++ "件* です\n"

/-- The full message text assembled by the latest variant postToSlack
(lines 499-515): count line for the expired bucket, then its buffered
lines, then the count line for the near bucket, then its lines. -/
def renderReport (endpoint : String) (resolve : Option IdName → String)
    (expired near : List IssueV3) : String :=
  let eb := renderBucket (issueLine endpoint resolve) expired
  let nb := renderBucket (issueLine endpoint resolve) near
  expiredCountLine eb.2 ++ eb.1 ++ (nearCountLine nb.2 ++ nb.1)

/-- Concatenation of the per-ticket lines of a bucket, in bucket order. -/
def linesOf (line : IssueV3 → String) : List IssueV3 → String
  | [] => ""
  | is2 :: rest => line is2 ++ linesOf line rest

/-- The userMap / usermapping.json table as an association list; lookup
returns the first value bound to the key. -/
def lookupMap (m : List (String × String)) (k : String) : Option String :=
  (m.find? (fun p => p.1 == k)).map (fun p => p.2)

/-- strings.Replace(realName, full-width space, regular space, -1):
the pattern is a single character, so it is a per-character substitution. -/
def normalizeRealName (s : String) : String :=
  String.mk (s.data.map (fun ch => if ch = '　' then ' ' else ch))

/-- Latest variant isSameUser (lines 553-572).  The Go function recurses
after substituting the mapped display name and need not terminate, so the
model takes a fuel bound; none means the recursion is still running after
that many nested calls. -/
def isSameUser : Nat → List (String × String) → RUser → SlackUser → Option Bool
  | 0, _, _, _ => none
  | fuel + 1, umap, ru, su =>
    let realName := normalizeRealName su.realName
    if ru.login == su.name then some true
    else if realName == ru.lastname ++ ru.firstname
        || realName == ru.lastname ++ " " ++ ru.firstname
        || realName == ru.firstname ++ ru.lastname
        || realName == ru.firstname ++ " " ++ ru.lastname then some true
    else
      match lookupMap umap su.realName with
      | some mapped => isSameUser fuel umap ru { su with realName := mapped }
      | none => some false

/-- Steps 1-2 of the matching policy as the claims state them: login
equality, or normalized display name equal to one of the four last/first
concatenations. -/
def matchSteps12 (ru : RUser) (su : SlackUser) : Bool :=
  let realName := normalizeRealName su.realName
  ru.login == su.name
    || realName == ru.lastname ++ ru.firstname
    || realName == ru.lastname ++ " " ++ ru.firstname
    || realName == ru.firstname ++ ru.lastname
    || realName == ru.firstname ++ " " ++ ru.lastname

/-- Modelled from the spec (section 4.1, step 3): steps 1-2, then at most
one mapping-table substitution of the display name followed by a single
retry of steps 1-2 - explicitly not a chain. -/
def isSameUserSpec (umap : List (String × String)) (ru : RUser) (su : SlackUser) : Bool :=
  matchSteps12 ru su ||
    match lookupMap umap su.realName with
    | some mapped => matchSteps12 ru { su with realName := mapped }
    | none => false

/-- The matching loop of the latest variant getUser (lines 544-548): first
chat user in list order for which isSameUser holds; none means a
non-terminating isSameUser call was reached. -/
def findSame (fuel : Nat) (umap : List (String × String)) (ru : RUser) :
    List SlackUser → Option (Option SlackUser)
  | [] => some none
  | su :: rest =>
    match isSameUser fuel umap ru su with
    | none => none
    | some true => some (some su)
    | some false => findSame fuel umap ru rest

/-- Latest variant getUser (lines 530-551).  userLookup models
redmineClient.User (none = error), slackList models Users().List()
(none = error).  An overall none marks a non-terminating matching loop. -/
def getUser (fuel : Nat) (umap : List (String × String)) (userLookup : Int → Option RUser)
    (slackList : Option (List SlackUser)) (idname : Option IdName) : Option String :=
  match idname with
  | none => some ""
  | some idn =>
    match userLookup idn.id with
    | none => some idn.name
    | some ru =>
      match slackList with
      | none => some idn.name
      | some sul =>
        match findSame fuel umap ru sul with
        | none => none
        | some (some su) => some ("<@" ++ su.id ++ ">")
        | some none => some idn.name

/-- First variant getUser (lines 160-187).  There is no nil guard:
id := idname.Name dereferences the pointer at once, so a nil assignee
reference panics - modelled as an overall none. -/
def getUserV1 (umap : List (String × String)) (userLookup : Int → Option RUser)
    (slackList : Option (List SlackUser)) (idname : Option IdName) : Option String :=
  match idname with
  | none => none
  | some idn =>
    let id0 := (lookupMap umap idn.name).getD idn.name
    match userLookup idn.id with
    | none => some (if id0 == "channel" then "!" ++ id0 else id0)
    | some ru =>
      let login := (lookupMap umap ru.login).getD ru.login
      match slackList with
      | none => some login
      | some sul =>
        match sul.find? (fun su => su.name == login) with
        | some su => some ("@" ++ su.id)
        | none => some login

/-- The display name of su is either not a mapping key, or maps to a value
that is not itself a key: the substitution chain stops after one step. -/
def chainStops (umap : List (String × String)) (su : SlackUser) : Bool :=
  match lookupMap umap su.realName with
  | none => true
  | some v => (lookupMap umap v).isNone

/-- A tracker user none of whose name forms occur among the concrete chat
users below. -/
def cRu : RUser := { login := "jdoe", firstname := "Jane", lastname := "Doe" }

/-- Chat user whose display name A is a key of the cyclic table. -/
def cSuCycle : SlackUser := { id := "U1", name := "x", realName := "A" }

/-- cSuCycle after one substitution of the cyclic table. -/
def cSuCycleB : SlackUser := { id := "U1", name := "x", realName := "B" }

/-- A mapping table whose values are themselves keys: A and B map to each
other. -/
def cycleMap : List (String × String) := [("A", "B"), ("B", "A")]

/-- A two-step substitution chain: A maps to B, B maps to DoeJane. -/
def chainMap : List (String × String) := [("A", "B"), ("B", "DoeJane")]

/-- A single-step table: the value DoeJane is not itself a key. -/
def subMap : List (String × String) := [("A", "DoeJane")]

/-- A single-step table whose value B is not a key. -/
def abMap : List (String × String) := [("A", "B")]

/-- Chat user whose display name is a key of subMap / chainMap / abMap. -/
def cSuSub : SlackUser := { id := "U2", name := "x", realName := "A" }

/-- Chat user matching cRu by login. -/
def cSuLogin : SlackUser := { id := "U9", name := "jdoe", realName := "whatever" }

/-- Chat user matching nothing about cRu. -/
def cSuZz : SlackUser := { id := "U1", name := "zz", realName := "Z" }

/-- A ticket assignee reference with display name Jane Doe. -/
def cIdn : IdName := { id := 7, name := "Jane Doe" }

/-- A redmine issue whose due-date string does not parse. -/
def cRiBad : RIssue := { id := 1, subject := "t", dueDate := "notadate", assignedTo := none }

/-- A redmine issue due 2018-06-01. -/
def cRiOld : RIssue := { id := 2, subject := "s", dueDate := "2018-06-01", assignedTo := none }

/-- A converted issue carrying the zero-value due date. -/
def cIssueZero : IssueV3 := { id := 3, subject := "s", dueDate := zeroTimeNs, assignedTo := none }

/-- One-step unfolding of the fueled isSameUser. -/
theorem isSameUser_succ (n : Nat) (umap : List (String × String)) (ru : RUser) (su : SlackUser) :
    isSameUser (n + 1) umap ru su =
      (if ru.login == su.name then some true
       else if normalizeRealName su.realName == ru.lastname ++ ru.firstname
           || normalizeRealName su.realName == ru.lastname ++ " " ++ ru.firstname
           || normalizeRealName su.realName == ru.firstname ++ ru.lastname
           || normalizeRealName su.realName == ru.firstname ++ " " ++ ru.lastname then some true
       else
         match lookupMap umap su.realName with
         | some mapped => isSameUser n umap ru { su with realName := mapped }
         | none => some false) := rfl

/-- When the chat user's display name is not a mapping key, one unit of
fuel settles isSameUser and it agrees with steps 1-2. -/
theorem isSameUser_no_entry (n : Nat) (umap : List (String × String)) (ru : RUser)
    (su : SlackUser) (h : lookupMap umap su.realName = none) :
    isSameUser (n + 1) umap ru su = some (matchSteps12 ru su) := by
  rw [isSameUser_succ n umap ru su, h]
  cases h1 : (ru.login == su.name) <;>
    cases h2 : (normalizeRealName su.realName == ru.lastname ++ ru.firstname
      || normalizeRealName su.realName == ru.lastname ++ " " ++ ru.firstname
      || normalizeRealName su.realName == ru.firstname ++ ru.lastname
      || normalizeRealName su.realName == ru.firstname ++ " " ++ ru.lastname) <;>
    simp [matchSteps12, h1, h2]

/-- String concatenation is associative. -/
theorem strAppendAssoc (a b c : String) : a ++ b ++ c = a ++ (b ++ c) := by
  cases a with
  | mk da =>
    cases b with
    | mk db =>
      cases c with
      | mk dc =>
        show String.mk (da ++ db ++ dc) = String.mk (da ++ (db ++ dc))
        rw [List.append_assoc]

/-- The empty string is a left identity for concatenation. -/
theorem strEmptyAppend (s : String) : "" ++ s = s := rfl

/-- The empty string is a right identity for concatenation. -/
theorem strAppendEmpty (s : String) : s ++ "" = s := by
  cases s with
  | mk ds =>
    show String.mk (ds ++ []) = String.mk ds
    rw [List.append_nil]

/-- The buffer loop of postToSlack appends one line per ticket while the
counter counts the tickets. -/
theorem renderBucket_loop (line : IssueV3 → String) (l : List IssueV3) (s : String) (k : Nat) :
    l.foldl (fun acc is2 => (acc.1 ++ line is2, acc.2 + 1)) (s, k) =
      (s ++ linesOf line l, k + l.length) := by
  induction l generalizing s k with
  | nil => simp [linesOf, strAppendEmpty]
  | cons a t ih =>
    simp only [List.foldl_cons, linesOf, List.length_cons]
    rw [ih]
    simp only [Prod.mk.injEq]
    exact ⟨strAppendAssoc s (line a) (linesOf line t), by omega⟩

/-- renderBucket produces the concatenated lines and the bucket size. -/
theorem renderBucket_eq (line : IssueV3 → String) (iss : List IssueV3) :
    renderBucket line iss = (linesOf line iss, iss.length) := by
  unfold renderBucket
  rw [renderBucket_loop]
  simp [strEmptyAppend]

/-- ratDivPos really is division (both sides are zero when c is). -/
theorem ratDivPos_eq (x : Rat) (c : Nat) : ratDivPos x c = x / (c : Rat) := by
  unfold ratDivPos
  rw [Rat.mkRat_eq_div]
  push_cast
  conv_rhs => rw [← Rat.num_div_den x]
  rw [div_div]

/-- ratSub really is subtraction. -/
theorem ratSub_eq (a b : Rat) : ratSub a b = a - b := by
  have ha : (a.den : Rat) ≠ 0 := Nat.cast_ne_zero.mpr a.den_nz
  have hb : (b.den : Rat) ≠ 0 := Nat.cast_ne_zero.mpr b.den_nz
  unfold ratSub
  rw [Rat.mkRat_eq_div]
  push_cast
  conv_rhs => rw [← Rat.num_div_den a, ← Rat.num_div_den b]
  rw [div_sub_div _ _ ha hb]
  ring

/-- C1: counterexample - for the latest variant, run date Wednesday
2018-06-13: the issue whose due-date string does not parse is NOT excluded
from both buckets; it lands in the Expired bucket (its due date became the
zero value, which precedes today). -/
theorem c1_counterexample :
    parseGoDate "notadate" = none ∧
    expiredBucket (17695 * nsPerDay) (convertIssues [cRiBad]) = convertIssues [cRiBad] ∧
    convertIssues [cRiBad] ≠ [] := by decide

/-- C1: amended - a ticket whose due-date string does not parse is never
classified as DueSoon, but it is placed in the Expired bucket whenever the
run date lies after the zero date 0001-01-01 (the failed parse leaves the
zero value in place); it is not excluded from both buckets. -/
theorem c1_unparseable_goes_to_expired (today weekend : Int) (ri : RIssue)
    (hp : parseGoDate ri.dueDate = none) (ht : zeroTimeNs < today) :
    isExpired today (convertIssue ri) = true ∧
    isNear today weekend (convertIssue ri) = false := by
  have hdue : (convertIssue ri).dueDate = zeroTimeNs := by
    simp [convertIssue, parseDueDate, hp]
  refine ⟨?_, ?_⟩
  · simp [isExpired, hdue, ht]
  · simp [isNear, isExpired, hdue, ht]

/-- C1: witness for the amended theorem at run date 2018-06-13. -/
theorem c1_witness :
    isExpired (17695 * nsPerDay) (convertIssue cRiBad) = true ∧
    isNear (17695 * nsPerDay) (17697 * nsPerDay) (convertIssue cRiBad) = false :=
  c1_unparseable_goes_to_expired (17695 * nsPerDay) (17697 * nsPerDay) cRiBad
    (by decide) (by decide)

/-- C2: counterexample - 2018-06-15 (day 17697) is a Friday and the
computed boundary equals the start date itself; 2018-06-16 is a Saturday
and the boundary lies strictly before the start date.  The boundary does
not advance to the next Friday. -/
theorem c2_counterexample :
    goWeekdayNs (17697 * nsPerDay) = 5 ∧
    weekendNs (17697 * nsPerDay) = 17697 * nsPerDay ∧
    goWeekdayNs (17698 * nsPerDay) = 6 ∧
    weekendNs (17698 * nsPerDay) < 17698 * nsPerDay := by decide

/-- C2: amended - the boundary is start + (5 - weekday) days (Sunday = 0).
It is strictly after the start exactly for Sunday through Thursday starts;
on a Friday start it equals the start instant, and on a Saturday start it
lies one day before it. -/
theorem c2_boundary_behavior (t : Int) :
    (goWeekdayNs t ≤ 4 → t < weekendNs t) ∧
    (goWeekdayNs t = 5 → weekendNs t = t) ∧
    (goWeekdayNs t = 6 → weekendNs t = t - 3600000000000 * 24) := by
  have h0 : 0 ≤ goWeekdayNs t := Int.emod_nonneg _ (by norm_num)
  unfold weekendNs
  refine ⟨fun h => by omega, fun h => by omega, fun h => by omega⟩

/-- C2: witness - at the Friday start 2018-06-15 the boundary equals the
start. -/
theorem c2_witness : weekendNs (17697 * nsPerDay) = 17697 * nsPerDay :=
  (c2_boundary_behavior (17697 * nsPerDay)).2.1 (by decide)

/-- C3: counterexample - in the older variant, with the run starting
Wednesday 2018-06-13 (boundary Friday 2018-06-15), a ticket due 2018-06-01
satisfies both isExpired and isNear and so is sent to both buckets. -/
theorem c3_counterexample :
    isExpiredV2 (17695 * nsPerDay) cRiOld = true ∧
    isNearV2 (weekendNs (17695 * nsPerDay)) cRiOld = true ∧
    expiredBucketV2 (17695 * nsPerDay) [cRiOld] = [cRiOld] ∧
    nearBucketV2 (weekendNs (17695 * nsPerDay)) [cRiOld] = [cRiOld] := by decide

/-- C3: amended - in the latest variant, whose isNear conjoins !isExpired,
the buckets are disjoint for every ticket, ticket list, today and week
boundary: no ticket passes both filters.  (The older variant, whose isNear
only bounds the due date by the boundary, violates this.) -/
theorem c3_buckets_disjoint (today weekend : Int) (iss : List IssueV3) (is2 : IssueV3) :
    (isExpired today is2 && isNear today weekend is2) = false ∧
    iss.filter (fun x => isExpired today x && isNear today weekend x) = [] := by
  refine ⟨?_, ?_⟩
  · cases h : isExpired today is2 <;> simp [isNear, h]
  · rw [List.filter_eq_nil_iff]
    intro a _
    cases h : isExpired today a <;> simp [isNear, h]

/-- C4: counterexample - with the mapping table sending A to DoeJane, the
chat user with display name A matches the tracker user even though neither
step 1 nor step 2 holds for it, so "matches exactly when step 1 or step 2"
fails. -/
theorem c4_counterexample :
    matchSteps12 cRu cSuSub = false ∧
    isSameUser 2 subMap cRu cSuSub = some true := by decide

/-- C4: amended - resolution tries chat users in list order and the first
match wins; when the mapping table has no entry for a chat user's display
name, that user matches exactly when step 1 (login equality) or step 2
(normalized display name equal to one of the four last/first
concatenations) holds, and the loop returns the first such user. -/
theorem c4_first_match_steps12 (n : Nat) (umap : List (String × String)) (ru : RUser)
    (sul : List SlackUser) (h : ∀ su ∈ sul, lookupMap umap su.realName = none) :
    findSame (n + 1) umap ru sul = some (sul.find? (fun su => matchSteps12 ru su)) := by
  induction sul with
  | nil => rfl
  | cons su rest ih =>
    have hsu : lookupMap umap su.realName = none := h su (by simp)
    have hrest : ∀ su2 ∈ rest, lookupMap umap su2.realName = none :=
      fun su2 hm => h su2 (by simp [hm])
    rw [show findSame (n + 1) umap ru (su :: rest) =
        (match isSameUser (n + 1) umap ru su with
         | none => none
         | some true => some (some su)
         | some false => findSame (n + 1) umap ru rest) from rfl]
    rw [isSameUser_no_entry n umap ru su hsu]
    cases hm : matchSteps12 ru su
    · simp [List.find?_cons, hm, ih hrest]
    · simp [List.find?_cons, hm]

/-- C4: witness - with an empty mapping table the loop returns the first
(and only) chat user, which matches by login. -/
theorem c4_witness : findSame 1 [] cRu [cSuLogin] = some (some cSuLogin) :=
  (c4_first_match_steps12 0 [] cRu [cSuLogin] (by decide)).trans (by decide)

/-- C5: counterexample - with the table sending A to B and B to DoeJane,
the code chains two substitutions and matches (fuel 3), while the
single-substitution procedure of the claim does not match; with fuel for
only one substitution the code is still recursing. -/
theorem c5_counterexample :
    isSameUserSpec chainMap cRu cSuSub = false ∧
    isSameUser 3 chainMap cRu cSuSub = some true ∧
    isSameUser 2 chainMap cRu cSuSub = none := by decide

/-- C5: amended - the retry recurses on the whole procedure, so
substitutions chain.  The recursion settles after at most one substitution
whenever the display name's mapped value (if any) is not itself a key
(first conjunct); but for the cyclic table sending A to B and B to A, with
a chat user named A matching nothing directly, no amount of fuel settles
the recursion - the procedure does not terminate (second conjunct). -/
theorem c5_chaining_behavior :
    (∀ umap ru su, chainStops umap su = true → isSameUser 2 umap ru su ≠ none) ∧
    (∀ n, isSameUser n cycleMap cRu cSuCycle = none) := by
  constructor
  · intro umap ru su h
    rw [show (2 : Nat) = 1 + 1 from rfl, isSameUser_succ]
    cases h1 : (ru.login == su.name)
    · cases h2 : (normalizeRealName su.realName == ru.lastname ++ ru.firstname
        || normalizeRealName su.realName == ru.lastname ++ " " ++ ru.firstname
        || normalizeRealName su.realName == ru.firstname ++ ru.lastname
        || normalizeRealName su.realName == ru.firstname ++ " " ++ ru.lastname)
      · cases hl : lookupMap umap su.realName with
        | none => simp [h1, h2, hl]
        | some v =>
          have hv : lookupMap umap v = none := by
            unfold chainStops at h
            rw [hl] at h
            exact Option.isNone_iff_eq_none.mp h
          have hstep : isSameUser 1 umap ru { su with realName := v } =
              some (matchSteps12 ru { su with realName := v }) :=
            isSameUser_no_entry 0 umap ru { su with realName := v } hv
          simp [h1, h2, hl, hstep]
      · simp [h1, h2]
    · simp [h1]
  · have both : ∀ n, isSameUser n cycleMap cRu cSuCycle = none ∧
        isSameUser n cycleMap cRu cSuCycleB = none := by
      intro n
      induction n with
      | zero => exact ⟨rfl, rfl⟩
      | succ m ih =>
        refine ⟨?_, ?_⟩
        · rw [show isSameUser (m + 1) cycleMap cRu cSuCycle =
              isSameUser m cycleMap cRu cSuCycleB from rfl]
          exact ih.2
        · rw [show isSameUser (m + 1) cycleMap cRu cSuCycleB =
              isSameUser m cycleMap cRu cSuCycle from rfl]
          exact ih.1
    exact fun n => (both n).1

/-- C5: witness - for the table sending A to B only (B is not a key), the
matching of the chat user named A settles within one substitution. -/
theorem c5_witness :
    chainStops abMap cSuSub = true ∧ isSameUser 2 abMap cRu cSuSub ≠ none :=
  ⟨by decide, c5_chaining_behavior.1 abMap cRu cSuSub (by decide)⟩

/-- C6: the first variant getUser dereferences a nil assignee reference
(id := idname.Name) with no guard, modelled as the overall none (panic),
for every mapping table and every oracle; the latest variant instead
short-circuits to the empty string before consulting any oracle. -/
theorem c6_nil_assignee (umap umap2 : List (String × String))
    (look look2 : Int → Option RUser) (sl sl2 : Option (List SlackUser)) (fuel : Nat) :
    getUserV1 umap look sl none = none ∧ getUser fuel umap2 look2 sl2 none = some "" :=
  ⟨rfl, rfl⟩

/-- C7: counterexample - first variant: the tracker lookup succeeds for
assignee Jane Doe (login jdoe) and no chat user matches; the fallback is
the login jdoe, not the raw display name Jane Doe. -/
theorem c7_counterexample :
    getUserV1 [] (fun _ => some cRu) (some [cSuZz]) (some cIdn) = some "jdoe" ∧
    ("jdoe" : String) ≠ "Jane Doe" := by decide

/-- C7: amended - in the latest variant, getUser degrades to the
assignee's raw display name and returns normally (the run continues) in
all three failure cases: tracker-user lookup failure, chat-list fetch
failure, and an unmatched scan of the full chat list.  (In the first
variant the unmatched-scan fallback is the tracker login instead.) -/
theorem c7_fallback_raw_name (fuel : Nat) (umap : List (String × String))
    (look : Int → Option RUser) (idn : IdName) (ru : RUser) (sul : List SlackUser) :
    (look idn.id = none → ∀ sl, getUser fuel umap look sl (some idn) = some idn.name) ∧
    getUser fuel umap look none (some idn) = some idn.name ∧
    (look idn.id = some ru → findSame fuel umap ru sul = some none →
      getUser fuel umap look (some sul) (some idn) = some idn.name) := by
  refine ⟨fun h sl => ?_, ?_, fun h1 h2 => ?_⟩
  · simp [getUser, h]
  · cases hl : look idn.id <;> simp [getUser, hl]
  · simp [getUser, h1, h2]

/-- C7: witness - tracker lookup fails for Jane Doe; the rendered value is
the raw display name. -/
theorem c7_witness : getUser 1 [] (fun _ => none) (some []) (some cIdn) = some "Jane Doe" :=
  (c7_fallback_raw_name 1 [] (fun _ => none) cIdn cRu []).1 rfl (some [])

/-- C8: confirmed - a ticket whose due date is the zero-value sentinel
(formatted 0001-01-01) renders with the localized due-date-not-set
placeholder 期日未設定 in place of the date, not the literal date string
(which would have been 0001-01-01, second conjunct). -/
theorem c8_zero_date_placeholder (ep : String) (resolve : Option IdName → String)
    (is2 : IssueV3) (h : is2.dueDate = zeroTimeNs) :
    issueLine ep resolve is2 =
      "- " ++ "期日未設定" ++ " <" ++ ep ++ "/issues/" ++ toString is2.id ++ "|#" ++
        toString is2.id ++ ">: " ++ is2.subject ++ "(" ++
        unassignable (resolve is2.assignedTo) "担当" ++ ")\n" ∧
    formatDate zeroTimeNs = "0001-01-01" := by
  refine ⟨?_, by decide⟩
  have hz : unassignable (formatTime zeroTimeNs) "期日" = "期日未設定" := by decide
  unfold issueLine
  rw [h, hz]

/-- C8: witness at a concrete zero-due issue. -/
theorem c8_witness :
    issueLine "e" (fun _ => "") cIssueZero =
      "- " ++ "期日未設定" ++ " <" ++ "e" ++ "/issues/" ++ toString cIssueZero.id ++ "|#" ++
        toString cIssueZero.id ++ ">: " ++ cIssueZero.subject ++ "(" ++
        unassignable "" "担当" ++ ")\n" ∧
    formatDate zeroTimeNs = "0001-01-01" :=
  c8_zero_date_placeholder "e" (fun _ => "") cIssueZero rfl

/-- C9: counterexample - for a one-ticket Expired bucket the report does
not have the form "ticket lines followed by the count summary": the
summary line comes first. -/
theorem c9_counterexample :
    renderReport "e" (fun _ => "") [cIssueZero] [] ≠
      linesOf (issueLine "e" (fun _ => "")) [cIssueZero] ++ expiredCountLine 1 ++
        (linesOf (issueLine "e" (fun _ => "")) [] ++ nearCountLine 0) := by decide

/-- C9: amended - each bucket section is the bucket's one-line count
summary followed by one line per ticket (the summary precedes the lines),
the count equals the bucket's cardinality, and the full report is the
Expired section followed by the DueSoon section, a single text blob. -/
theorem c9_report_structure (ep : String) (resolve : Option IdName → String)
    (expired near : List IssueV3) :
    renderReport ep resolve expired near =
      expiredCountLine expired.length ++ linesOf (issueLine ep resolve) expired ++
        (nearCountLine near.length ++ linesOf (issueLine ep resolve) near) := by
  simp only [renderReport, renderBucket_eq]

/-- C10: confirmed - in the first variant, when the tracker-user lookup
fails and the mapping table maps the assignee's display name to channel,
getUser returns !channel; any other mapped value is returned unprefixed. -/
theorem c10_channel_mention (umap : List (String × String)) (look : Int → Option RUser)
    (sl : Option (List SlackUser)) (idn : IdName) (v : String)
    (hlook : look idn.id = none) (hmap : lookupMap umap idn.name = some v) :
    (v = "channel" → getUserV1 umap look sl (some idn) = some "!channel") ∧
    (v ≠ "channel" → getUserV1 umap look sl (some idn) = some v) := by
  constructor <;> intro hv
  · subst hv
    simp [getUserV1, hlook, hmap]
  · simp [getUserV1, hlook, hmap, hv]

/-- C10: witness - Jane Doe is mapped to channel and the tracker lookup
fails: the result is the channel-wide mention. -/
theorem c10_witness :
    getUserV1 [("Jane Doe", "channel")] (fun _ => none) none (some cIdn) = some "!channel" :=
  (c10_channel_mention [("Jane Doe", "channel")] (fun _ => none) none cIdn "channel"
    rfl (by decide)).1 rfl
